import Mathlib

/-!
Verification of the Emergency/Route coordination core of the PersonalSafetyApp
repository, shallowly embedded in Lean 4.

The embedding follows the TypeScript sources:
* `src/types` (`Location`, `EmergencyContact`, `EmergencyAlert`, `RoutePoint`,
  `RouteTracking`),
* `src/constants` (`ROUTE_TRACKING`, `DISTANCES`, `TIMEOUTS`,
  `EMERGENCY_MESSAGES`, `EMERGENCY_TYPES`),
* `src/services/RouteTrackingService.ts`,
* `src/services/EmergencyService.ts`,
* `LocationService.getLocationAccuracy`.

Numbers that the source stores in JS `number`s are modelled as `ℚ` (all the
arithmetic the core performs on them — additions and comparisons against small
constants — is exact in double precision at the scales involved) and
timestamps as `ℕ`.  The one genuinely floating-point ingredient,
`calculateDistance` (the haversine formula via `Math.sin`/`Math.cos`/
`Math.atan2`), is kept as an explicit parameter `d : DistFn` of the route
operations: none of the control flow of the services depends on anything but
comparisons of its results, so every theorem below is proved for an arbitrary
distance function, and concrete instantiations use `demoDist`, which produces
the haversine values of same-longitude points (where the haversine formula
degenerates to arc length along a meridian, ≈ 111 194.9 m per degree of
latitude).

Asynchronous collaborator calls (device location, contact storage, SMS/email
composition) are modelled as explicit inputs, and their observable outbound
effects as event lists.  JS `setInterval` timers are modelled by a runtime set
of live timers carrying the closure state (captured alert, contacts and the
mutable countdown variable); the service's `countdownTimer` field stores a
timer id, mirroring the handle variable of the source.  Alert objects are
mutated through references in the source, so alerts live in a small heap
keyed by id and the `activeAlert` field and timer closures hold ids.
-/

/-- Source `src/types`: `Location`. Coordinates and the optional numeric
fields are rationals, the timestamp a natural number. -/
structure Location where
  latitude : ℚ
  longitude : ℚ
  timestamp : ℕ
  accuracy : Option ℚ
  altitude : Option ℚ
  speed : Option ℚ
  deriving Repr, DecidableEq

/-- Distance function standing for the source's floating-point haversine
`calculateDistance` (utils and `LocationService.calculateDistance`). -/
abbrev DistFn := Location → Location → ℚ

/-- Source `src/constants`: `ROUTE_TRACKING.MIN_DISTANCE_BETWEEN_POINTS = 10`
meters. -/
def ROUTE_TRACKING.MIN_DISTANCE_BETWEEN_POINTS : ℚ := 10

/-- Source `src/constants`: `ROUTE_TRACKING.MAX_POINTS_STORED = 1000`. -/
def ROUTE_TRACKING.MAX_POINTS_STORED : ℕ := 1000

/-- Source `src/constants`: `DISTANCES.ACCURACY_THRESHOLD = 20` meters. -/
def DISTANCES.ACCURACY_THRESHOLD : ℚ := 20

/-- Source `src/constants`: `TIMEOUTS.EMERGENCY_COUNTDOWN = 10` seconds. The
countdown variable is an integer because the source lets it go negative when
an orphaned interval keeps firing. -/
def TIMEOUTS.EMERGENCY_COUNTDOWN : ℤ := 10

/-- Result type of `LocationService.getLocationAccuracy`. -/
inductive AccuracyBucket where
  | high
  | medium
  | low
  deriving Repr, DecidableEq

/-- Source `LocationService.getLocationAccuracy`.  The JS guard
`if (!location.accuracy) return 'low'` is truthiness-based: it fires both
when `accuracy` is `undefined` and when it is `0`, which the `a = 0` branch
mirrors. -/
def getLocationAccuracy (location : Location) : AccuracyBucket :=
  match location.accuracy with
  | none => AccuracyBucket.low
  | some a =>
    if a = 0 then AccuracyBucket.low
    else if a ≤ DISTANCES.ACCURACY_THRESHOLD then AccuracyBucket.high
    else if a ≤ 50 then AccuracyBucket.medium
    else AccuracyBucket.low

/-- Source `src/types`: `EmergencyContact`. -/
structure EmergencyContact where
  id : String
  name : String
  phoneNumber : String
  email : Option String
  relationship : String
  isPrimary : Bool
  isActive : Bool
  createdAt : ℕ
  updatedAt : ℕ
  deriving Repr, DecidableEq

/-- Source `src/types`: `RoutePoint`.  The optional `isWaypoint?` flag is
modelled as a `Bool`, with JS `undefined` represented by `false` (the only
way the source reads it is truthiness). -/
structure RoutePoint where
  location : Location
  timestamp : ℕ
  isWaypoint : Bool
  deriving Repr, DecidableEq

/-- Source `src/types`: `RouteTracking`. -/
structure RouteTracking where
  id : ℕ
  userId : String
  startTime : ℕ
  endTime : Option ℕ
  isActive : Bool
  points : List RoutePoint
  totalDistance : ℚ
  destination : Option Location
  sharedWith : List String
  deriving Repr, DecidableEq

/-- Terminal or initial share announcements of
`RouteTrackingService.sendRouteShareMessage`. -/
inductive ShareAction where
  | started
  | stopped
  deriving Repr, DecidableEq

/-- Observable outbound effects of the route tracker: per-contact share
messages (the console/SMS handoff in `sendRouteShareMessage` and
`sendLocationUpdate`) and subscriber callback fan-outs
(`notifyRouteCallbacks`). -/
inductive RouteEvent where
  | shareMessage (action : ShareAction) (contactId : String)
  | locationUpdateMessage (contactId : String)
  | routeCallback (routeId : ℕ)
  deriving Repr, DecidableEq

/-- Fields of `RouteTrackingService` besides the callbacks list, together
with the `LocationService.isTracking` flag it drives: `activeRoute`,
`trackingInterval`/`sharingInterval` (modelled as liveness booleans) and
whether the location feed subscription is running. -/
structure RouteServiceState where
  activeRoute : Option RouteTracking
  trackingIntervalLive : Bool
  sharingIntervalLive : Bool
  locationTrackingOn : Bool
  deriving Repr, DecidableEq

/-- Initial route-service state: no active route, no timers, feed stopped. -/
def routeInit : RouteServiceState :=
  { activeRoute := none
    trackingIntervalLive := false
    sharingIntervalLive := false
    locationTrackingOn := false }

/-- Retention-cap truncation of `addLocationToRoute`: the source's
`points.slice(-MAX_POINTS_STORED)` applied when the list length exceeds the
cap, keeping the most recent points. -/
def truncPoints (pts : List RoutePoint) : List RoutePoint :=
  if ROUTE_TRACKING.MAX_POINTS_STORED < pts.length then
    pts.drop (pts.length - ROUTE_TRACKING.MAX_POINTS_STORED)
  else pts

/-- Source `RouteTrackingService.addLocationToRoute` (the location-feed
handler registered by `startRouteTracking`).  Returns the new route slot and
the emitted events.  The unreachable empty-`points` case (the source would
fault reading `points[points.length - 1]`, and the fault is swallowed by the
location feed's per-callback isolation, leaving state unchanged) is a no-op
here; every reachable route has the seed point. -/
def addLocationToRoute (d : DistFn) (now : ℕ) (location : Location)
    (activeRoute : Option RouteTracking) :
    Option RouteTracking × List RouteEvent :=
  match activeRoute with
  | none => (none, [])
  | some route =>
    if route.isActive = false then (some route, [])
    else
      match route.points.getLast? with
      | none => (some route, [])
      | some lastPoint =>
        let distance := d lastPoint.location location
        if ROUTE_TRACKING.MIN_DISTANCE_BETWEEN_POINTS ≤ distance then
          let newPoint : RoutePoint :=
            { location := location, timestamp := now, isWaypoint := false }
          let route' :=
            { route with
                points := truncPoints (route.points ++ [newPoint])
                totalDistance := route.totalDistance + distance }
          (some route', [RouteEvent.routeCallback route.id])
        else (some route, [])

/-- Source `RouteTrackingService.addWaypoint`.  `location || lastKnown` on
object values is `Option.orElse`; the waypoint is appended with no distance
accounting and no cap truncation.  Returns slot, events and the boolean
result. -/
def addWaypoint (now : ℕ) (location : Option Location)
    (lastKnown : Option Location) (activeRoute : Option RouteTracking) :
    Option RouteTracking × List RouteEvent × Bool :=
  match activeRoute with
  | none => (none, [], false)
  | some route =>
    if route.isActive = false then (some route, [], false)
    else
      match location.orElse (fun _ => lastKnown) with
      | none => (some route, [], false)
      | some waypointLocation =>
        let waypoint : RoutePoint :=
          { location := waypointLocation, timestamp := now, isWaypoint := true }
        let route' := { route with points := route.points ++ [waypoint] }
        (some route', [RouteEvent.routeCallback route.id], true)

/-- Source `RouteTrackingService.sendRouteShareMessage`: with no last-known
location it returns before sending anything; otherwise it emits one message
per contact of the given list, in order. -/
def sendRouteShareMessage (lastKnown : Option Location)
    (contacts : List EmergencyContact) (action : ShareAction) :
    List RouteEvent :=
  match lastKnown with
  | none => []
  | some _ => contacts.map (fun c => RouteEvent.shareMessage action c.id)

/-- Source `RouteTrackingService.notifyTrackingComplete`: filters the
directory to the contacts whose id is in `sharedWith` (with no `isActive`
filter) and hands them to `sendRouteShareMessage` with the stopped
action. -/
def notifyTrackingComplete (lastKnown : Option Location)
    (contacts : List EmergencyContact) (route : RouteTracking) :
    List RouteEvent :=
  if route.sharedWith.length = 0 then []
  else
    sendRouteShareMessage lastKnown
      (contacts.filter (fun c => route.sharedWith.contains c.id))
      ShareAction.stopped

/-- Source `RouteTrackingService.startRouteTracking`.  `id` stands for the
`generateId()` result and `now` for `getCurrentTimestamp()`;
`currentLocation` is the awaited `LocationService.getCurrentLocation()`
result.  Returns state, events and the returned route. -/
def startRouteTracking (id : ℕ) (now : ℕ) (currentLocation : Option Location)
    (destination : Option Location) (sharedWith : List String)
    (s : RouteServiceState) :
    RouteServiceState × List RouteEvent × Option RouteTracking :=
  match currentLocation with
  | none => (s, [], none)
  | some loc =>
    let route : RouteTracking :=
      { id := id
        userId := "current-user"
        startTime := now
        endTime := none
        isActive := true
        points := [{ location := loc, timestamp := now, isWaypoint := true }]
        totalDistance := 0
        destination := destination
        sharedWith := sharedWith }
    let s' : RouteServiceState :=
      { s with
          activeRoute := some route
          locationTrackingOn := true
          sharingIntervalLive :=
            if 0 < sharedWith.length then true else s.sharingIntervalLive }
    (s', [RouteEvent.routeCallback route.id], some route)

/-- Source `RouteTrackingService.stopRouteTracking`.  With no active route it
returns `false` before touching anything.  Otherwise it marks the end time,
flips `isActive`, stops the location feed and both intervals, attempts the
terminal stopped notification when `sharedWith` is non-empty, notifies
subscribers and clears the slot. -/
def stopRouteTracking (now : ℕ) (contacts : List EmergencyContact)
    (lastKnown : Option Location) (s : RouteServiceState) :
    RouteServiceState × List RouteEvent × Bool :=
  match s.activeRoute with
  | none => (s, [], false)
  | some route =>
    let route' := { route with endTime := some now, isActive := false }
    let stopEvents :=
      if 0 < route'.sharedWith.length then
        notifyTrackingComplete lastKnown contacts route'
      else []
    let events := stopEvents ++ [RouteEvent.routeCallback route'.id]
    ({ activeRoute := none
       trackingIntervalLive := false
       sharingIntervalLive := false
       locationTrackingOn := false },
     events, true)

/-- Route operations a live route is subjected to between start and stop:
filtered location updates delivered by the feed, and explicit waypoint
insertions. -/
inductive RouteOp where
  | update (now : ℕ) (location : Location)
  | waypoint (now : ℕ) (location : Option Location) (lastKnown : Option Location)

/-- Apply one route operation to the route slot (events dropped). -/
def applyRouteOp (d : DistFn) (r : Option RouteTracking) (op : RouteOp) :
    Option RouteTracking :=
  match op with
  | RouteOp.update now loc => (addLocationToRoute d now loc r).1
  | RouteOp.waypoint now loc lastKnown => (addWaypoint now loc lastKnown r).1

/-- Run a sequence of route operations on the route slot. -/
def runRouteOps (d : DistFn) (r : Option RouteTracking) (ops : List RouteOp) :
    Option RouteTracking :=
  ops.foldl (applyRouteOp d) r

/-- Run a sequence of raw location updates (timestamp, location) through the
acceptance filter. -/
def runUpdates (d : DistFn) (r : Option RouteTracking) :
    List (ℕ × Location) → Option RouteTracking
  | [] => r
  | u :: us => runUpdates d (addLocationToRoute d u.1 u.2 r).1 us

/-- Spec-side reading of the claim: the sum of consecutive-point haversine
distances along a list of points. -/
def consecDistSum (d : DistFn) : List RoutePoint → ℚ
  | p :: q :: rest => d p.location q.location + consecDistSum d (q :: rest)
  | _ => 0

/-- Spec-side reading of the acceptance filter: the subsequence of updates
accepted when each accepted update becomes the new reference point. -/
def acceptedPts (d : DistFn) (last : Location) :
    List (ℕ × Location) → List RoutePoint
  | [] => []
  | u :: us =>
    if ROUTE_TRACKING.MIN_DISTANCE_BETWEEN_POINTS ≤ d last u.2 then
      { location := u.2, timestamp := u.1, isWaypoint := false } ::
        acceptedPts d u.2 us
    else acceptedPts d last us

/-- Source `src/types`: `EmergencyType`. -/
inductive EmergencyType where
  | SOS
  | PANIC
  | MEDICAL
  | FIRE
  | POLICE
  deriving Repr, DecidableEq

/-- Source `src/types`: the `status` field of `EmergencyAlert`. -/
inductive AlertStatus where
  | ACTIVE
  | RESOLVED
  | CANCELLED
  deriving Repr, DecidableEq

/-- Source `src/constants`: `EMERGENCY_MESSAGES.DEFAULT_<type>`. -/
def defaultMessage : EmergencyType → String
  | EmergencyType.SOS =>
      "Emergency! I need help. My current location is attached."
  | EmergencyType.MEDICAL =>
      "Medical emergency! Please send help to my location."
  | EmergencyType.FIRE =>
      "Fire emergency! Please send fire department to my location."
  | EmergencyType.POLICE =>
      "Police emergency! Please send police to my location."
  | EmergencyType.PANIC =>
      "I am in danger and need immediate help!"

/-- Source `src/constants`: `EMERGENCY_TYPES[type].quickDial` — the string
`"911"` for every type except `PANIC`, which has no quick-dial number. -/
def quickDialOf : EmergencyType → Option String
  | EmergencyType.PANIC => none
  | _ => some "911"

/-- Source `EmergencyService.triggerEmergency`:
`message || EMERGENCY_MESSAGES[...]`.  JS `||` is falsy-based, so an empty
string also falls back to the default. -/
def resolveMessage (type : EmergencyType) (message : Option String) : String :=
  match message with
  | some m => if m = "" then defaultMessage type else m
  | none => defaultMessage type

/-- Source `src/types`: `EmergencyAlert` (ids are naturals standing for
`generateId()` results). -/
structure EmergencyAlert where
  id : ℕ
  userId : String
  type : EmergencyType
  location : Location
  message : String
  timestamp : ℕ
  status : AlertStatus
  contactsNotified : List String
  deriving Repr, DecidableEq

/-- Closure state of one `setInterval` countdown created by
`startEmergencyCountdown`: the captured alert reference (by id), the captured
active-contacts list, and the mutable `countdown` variable. -/
structure CountdownTimer where
  alertId : ℕ
  contacts : List EmergencyContact
  countdown : ℤ
  deriving Repr, DecidableEq

/-- Observable outbound effects of `EmergencyService`: a fan-out execution
(`executeEmergencyAlert` running for an alert), a per-contact delivery
attempt (`notifyEmergencyContact`), the quick-dial call, subscriber callback
fan-outs and resolution messages. -/
inductive EmEvent where
  | fanOutRun (alertId : ℕ)
  | notifyAttempt (contactId : String)
  | quickDialCall (phoneNumber : String)
  | emergencyCallback (alertId : ℕ)
  | resolutionSms (contactId : String)
  deriving Repr, DecidableEq

/-- State of `EmergencyService` together with the JS timer runtime: the alert
heap (alert objects are mutated through shared references in the source),
the `activeAlert` and `countdownTimer` fields as ids, the set of live
intervals, the history archive and fresh-id counters. -/
structure EmergencyState where
  nextId : ℕ
  alerts : List (ℕ × EmergencyAlert)
  activeAlert : Option ℕ
  countdownTimer : Option ℕ
  nextTimerId : ℕ
  timers : List (ℕ × CountdownTimer)
  history : List ℕ
  deriving Repr, DecidableEq

/-- Initial emergency-service state. -/
def emInit : EmergencyState :=
  { nextId := 0
    alerts := []
    activeAlert := none
    countdownTimer := none
    nextTimerId := 0
    timers := []
    history := [] }

/-- Dereference an alert id in the heap. -/
def lookupAlert (aid : ℕ) (alerts : List (ℕ × EmergencyAlert)) :
    Option EmergencyAlert :=
  (alerts.find? (fun p => p.1 = aid)).map Prod.snd

/-- Mutate the alert object behind an id in the heap. -/
def updateAlert (aid : ℕ) (f : EmergencyAlert → EmergencyAlert)
    (alerts : List (ℕ × EmergencyAlert)) : List (ℕ × EmergencyAlert) :=
  alerts.map (fun p => if p.1 = aid then (p.1, f p.2) else p)

/-- Quick-dial attempt of `executeEmergencyAlert`: one call composition for
the alert type's `quickDial` number when it has one (every type but
PANIC). -/
def quickDialEvents : Option EmergencyAlert → List EmEvent
  | some a =>
    match quickDialOf a.type with
    | some number => [EmEvent.quickDialCall number]
    | none => []
  | none => []

/-- Source `EmergencyService.executeEmergencyAlert`.  All per-contact
notifications are attempted (`Promise.allSettled` runs every promise); `ok`
tells which attempts complete without an exception (`notifyEmergencyContact`
catches its own failures and returns `false`), and exactly those contact ids
are pushed onto `contactsNotified`.  Then a quick-dial call is attempted for
all types but PANIC, the status is set ACTIVE and subscribers are
notified. -/
def executeEmergencyAlert (ok : String → Bool)
    (contacts : List EmergencyContact) (aid : ℕ) (s : EmergencyState) :
    EmergencyState × List EmEvent :=
  let attempts := contacts.map (fun c => EmEvent.notifyAttempt c.id)
  let successes := (contacts.filter (fun c => ok c.id)).map (fun c => c.id)
  let quickEvents := quickDialEvents (lookupAlert aid s.alerts)
  let s' :=
    { s with
        alerts :=
          updateAlert aid
            (fun a =>
              { a with
                  contactsNotified := a.contactsNotified ++ successes
                  status := AlertStatus.ACTIVE })
            s.alerts }
  (s',
   EmEvent.fanOutRun aid :: attempts ++ quickEvents ++
     [EmEvent.emergencyCallback aid])

/-- Source `EmergencyService.startEmergencyCountdown`: allocates a fresh
interval carrying the captured alert and contacts with the countdown
variable at `TIMEOUTS.EMERGENCY_COUNTDOWN`, and overwrites the
`countdownTimer` field.  An interval already stored in the field is NOT
cleared — its handle is simply lost, exactly as in the source. -/
def startEmergencyCountdown (contacts : List EmergencyContact) (aid : ℕ)
    (s : EmergencyState) : EmergencyState :=
  let tid := s.nextTimerId
  { s with
      countdownTimer := some tid
      timers :=
        s.timers ++
          [(tid,
            { alertId := aid
              contacts := contacts
              countdown := TIMEOUTS.EMERGENCY_COUNTDOWN })]
      nextTimerId := tid + 1 }

/-- Source `EmergencyService.triggerEmergency`.  `location` is the awaited
`LocationService.getCurrentLocation()` result (its failures degrade to
`none`), `contacts` the storage read, `ok` the per-contact delivery oracle
and `now` the clock.  Returns state, events, and the id of the returned
alert (`none` for the null returns). -/
def triggerEmergency (type : EmergencyType) (message : Option String)
    (skipCountdown : Bool) (location : Option Location)
    (contacts : List EmergencyContact) (ok : String → Bool) (now : ℕ)
    (s : EmergencyState) : EmergencyState × List EmEvent × Option ℕ :=
  match location with
  | none => (s, [], none)
  | some loc =>
    let activeContacts := contacts.filter (fun c => c.isActive)
    if activeContacts.length = 0 then (s, [], none)
    else
      let aid := s.nextId
      let alert : EmergencyAlert :=
        { id := aid
          userId := "current-user"
          type := type
          location := loc
          message := resolveMessage type message
          timestamp := now
          status := AlertStatus.ACTIVE
          contactsNotified := [] }
      let s1 :=
        { s with
            nextId := aid + 1
            alerts := s.alerts ++ [(aid, alert)]
            activeAlert := some aid }
      let r2 :=
        if skipCountdown then executeEmergencyAlert ok activeContacts aid s1
        else (startEmergencyCountdown activeContacts aid s1, [])
      let s3 := { r2.1 with history := r2.1.history ++ [aid] }
      (s3, r2.2 ++ [EmEvent.emergencyCallback aid], some aid)

/-- One firing of a live countdown interval (`tid`).  Mirrors the closure in
`startEmergencyCountdown`: the countdown variable is decremented; at zero or
below the interval stored in the `countdownTimer` FIELD (not necessarily the
firing one) is cleared, and `executeEmergencyAlert` runs for the captured
alert.  A cleared interval (`tid` not live) never fires. -/
def tickTimer (ok : String → Bool) (tid : ℕ) (s : EmergencyState) :
    EmergencyState × List EmEvent :=
  match s.timers.find? (fun p => p.1 = tid) with
  | none => (s, [])
  | some t =>
    let newCount := t.2.countdown - 1
    let timers1 :=
      s.timers.map
        (fun p => if p.1 = tid then (p.1, { p.2 with countdown := newCount }) else p)
    if newCount ≤ 0 then
      let cleared :=
        match s.countdownTimer with
        | some ct => timers1.filter (fun p => p.1 ≠ ct)
        | none => timers1
      let s1 :=
        { s with timers := cleared, countdownTimer := none }
      executeEmergencyAlert ok t.2.contacts t.2.alertId s1
    else
      ({ s with timers := timers1 }, [])

/-- Source `EmergencyService.cancelEmergencyCountdown`: only effective when
the `countdownTimer` field holds an interval; clears that interval, sets the
active alert's status to CANCELLED (the slot is NOT emptied) and notifies
subscribers. -/
def cancelEmergencyCountdown (s : EmergencyState) :
    EmergencyState × List EmEvent × Bool :=
  match s.countdownTimer with
  | none => (s, [], false)
  | some ct =>
    let s1 :=
      { s with
          timers := s.timers.filter (fun p => p.1 ≠ ct)
          countdownTimer := none }
    match s1.activeAlert with
    | some aid =>
      let s2 :=
        { s1 with
            alerts :=
              updateAlert aid (fun a => { a with status := AlertStatus.CANCELLED })
                s1.alerts }
      (s2, [EmEvent.emergencyCallback aid], true)
    | none => (s1, [], true)

/-- Source `EmergencyService.resolveEmergency`: succeeds only when the id
matches the current singleton; sets status RESOLVED, notifies subscribers,
sends a resolution message to every directory contact previously in
`contactsNotified`, and clears the slot. -/
def resolveEmergency (alertId : ℕ) (contacts : List EmergencyContact)
    (s : EmergencyState) : EmergencyState × List EmEvent × Bool :=
  match s.activeAlert with
  | none => (s, [], false)
  | some aid =>
    if aid = alertId then
      match lookupAlert aid s.alerts with
      | none => (s, [], false)
      | some a =>
        let s1 :=
          { s with
              alerts :=
                updateAlert aid (fun x => { x with status := AlertStatus.RESOLVED })
                  s.alerts }
        let notified :=
          contacts.filter (fun c => a.contactsNotified.contains c.id)
        ({ s1 with activeAlert := none },
         EmEvent.emergencyCallback aid ::
           notified.map (fun c => EmEvent.resolutionSms c.id),
         true)
    else (s, [], false)

/-- Source `EmergencyService.getActiveAlert`: the alert object currently in
the singleton slot. -/
def getActiveAlert (s : EmergencyState) : Option EmergencyAlert :=
  match s.activeAlert with
  | none => none
  | some aid => lookupAlert aid s.alerts

/-- Core emergency operations plus timer firings, each carrying the
collaborator inputs observed at that moment. -/
inductive EmOp where
  | trigger (type : EmergencyType) (message : Option String)
      (skipCountdown : Bool) (location : Option Location)
      (contacts : List EmergencyContact) (ok : String → Bool) (now : ℕ)
  | tick (ok : String → Bool) (tid : ℕ)
  | cancel
  | resolve (alertId : ℕ) (contacts : List EmergencyContact)

/-- Apply one emergency operation. -/
def applyEmOp (s : EmergencyState) : EmOp → EmergencyState × List EmEvent
  | EmOp.trigger type message skipCountdown location contacts ok now =>
    let r := triggerEmergency type message skipCountdown location contacts ok now s
    (r.1, r.2.1)
  | EmOp.tick ok tid => tickTimer ok tid s
  | EmOp.cancel =>
    let r := cancelEmergencyCountdown s
    (r.1, r.2.1)
  | EmOp.resolve alertId contacts =>
    let r := resolveEmergency alertId contacts s
    (r.1, r.2.1)

/-- Run a sequence of emergency operations, accumulating events. -/
def runEmOps (s : EmergencyState) : List EmOp → EmergencyState × List EmEvent
  | [] => (s, [])
  | op :: ops =>
    let r := applyEmOp s op
    let r' := runEmOps r.1 ops
    (r'.1, r.2 ++ r'.2)

/-- Demonstration distance function: for two points sharing a longitude the
haversine formula degenerates to the meridian arc `R * |Δφ|`, i.e. about
111 194.9 meters per degree of latitude; `demoDist` returns these values
(rounded to 111 194 m per degree, well within the slack of every concrete
scenario below, all of which keep a ≥ 1 m margin to the 10 m threshold). -/
def demoDist : DistFn := fun a b =>
  if a.latitude ≤ b.latitude then 111194 * (b.latitude - a.latitude)
  else 111194 * (a.latitude - b.latitude)

/-- Demonstration contact (active). -/
def demoContact : EmergencyContact :=
  { id := "A"
    name := "Alice"
    phoneNumber := "111"
    email := none
    relationship := "Friend"
    isPrimary := true
    isActive := true
    createdAt := 0
    updatedAt := 0 }

/-- Demonstration contact (inactive). -/
def demoContactB : EmergencyContact :=
  { id := "B"
    name := "Bob"
    phoneNumber := "222"
    email := some "b@example.com"
    relationship := "Friend"
    isPrimary := false
    isActive := false
    createdAt := 0
    updatedAt := 0 }

/-- Demonstration location with a good accuracy reading. -/
def demoLoc : Location :=
  { latitude := 40
    longitude := -74
    timestamp := 0
    accuracy := some 5
    altitude := none
    speed := none }

/-- C9 counterexample.  The claim says a present accuracy of at most 20 m —
"including accuracy exactly 0" — reports the high bucket.  The source guard
`if (!location.accuracy) return 'low'` is a JS truthiness test, so an
accuracy of exactly 0 falls into the missing-accuracy branch and reports
low, not high. -/
theorem getLocationAccuracy_zero_reports_low :
    getLocationAccuracy
        { latitude := 40, longitude := -74, timestamp := 0,
          accuracy := some 0, altitude := none, speed := none } =
      AccuracyBucket.low ∧
    AccuracyBucket.low ≠ AccuracyBucket.high := by
  decide

/-- C9 amended.  The accuracy bucket is low when accuracy is missing OR
exactly zero (JS falsiness); for a present nonzero accuracy the thresholds
are as claimed: at most 20 m is high, at most 50 m is medium, anything
larger is low. -/
theorem getLocationAccuracy_buckets (location : Location) :
    (location.accuracy = none →
      getLocationAccuracy location = AccuracyBucket.low) ∧
    (∀ a, location.accuracy = some a → a = 0 →
      getLocationAccuracy location = AccuracyBucket.low) ∧
    (∀ a, location.accuracy = some a → a ≠ 0 →
      a ≤ DISTANCES.ACCURACY_THRESHOLD →
      getLocationAccuracy location = AccuracyBucket.high) ∧
    (∀ a, location.accuracy = some a → DISTANCES.ACCURACY_THRESHOLD < a →
      a ≤ 50 → getLocationAccuracy location = AccuracyBucket.medium) ∧
    (∀ a, location.accuracy = some a → 50 < a →
      getLocationAccuracy location = AccuracyBucket.low) := by
  refine ⟨?_, ?_, ?_, ?_, ?_⟩
  · intro h
    simp [getLocationAccuracy, h]
  · intro a h h0
    simp [getLocationAccuracy, h, h0]
  · intro a h h0 hle
    simp [getLocationAccuracy, h, h0, hle]
  · intro a h hlt hle
    have h0 : ¬ a = 0 := by
      intro h0
      rw [h0] at hlt
      exact absurd hlt (by norm_num [DISTANCES.ACCURACY_THRESHOLD])
    have h1 : ¬ a ≤ DISTANCES.ACCURACY_THRESHOLD := not_le.mpr hlt
    simp [getLocationAccuracy, h, h0, h1, hle]
  · intro a h hlt
    have h0 : ¬ a = 0 := by
      intro h0
      rw [h0] at hlt
      exact absurd hlt (by norm_num)
    have h1 : ¬ a ≤ DISTANCES.ACCURACY_THRESHOLD := by
      rw [not_le]
      calc DISTANCES.ACCURACY_THRESHOLD ≤ 50 := by
            norm_num [DISTANCES.ACCURACY_THRESHOLD]
        _ < a := hlt
    have h2 : ¬ a ≤ 50 := not_le.mpr hlt
    simp [getLocationAccuracy, h, h0, h1, h2]

/-- Witness for the amended C9 theorem at concrete accuracies 5 m (high),
35 m (medium), 80 m (low) and a missing accuracy (low). -/
theorem getLocationAccuracy_buckets_witness :
    getLocationAccuracy demoLoc = AccuracyBucket.high ∧
    getLocationAccuracy { demoLoc with accuracy := some 35 } =
      AccuracyBucket.medium ∧
    getLocationAccuracy { demoLoc with accuracy := some 80 } =
      AccuracyBucket.low ∧
    getLocationAccuracy { demoLoc with accuracy := none } =
      AccuracyBucket.low :=
  ⟨(getLocationAccuracy_buckets demoLoc).2.2.1 5 rfl (by norm_num) (by
      norm_num [DISTANCES.ACCURACY_THRESHOLD]),
   (getLocationAccuracy_buckets { demoLoc with accuracy := some 35 }).2.2.2.1
      35 rfl (by norm_num [DISTANCES.ACCURACY_THRESHOLD]) (by norm_num),
   (getLocationAccuracy_buckets { demoLoc with accuracy := some 80 }).2.2.2.2
      80 rfl (by norm_num),
   (getLocationAccuracy_buckets { demoLoc with accuracy := none }).1 rfl⟩

/-- C10.  A location update delivered while no route occupies the slot, or
while the route in the slot is no longer active, is a complete no-op: the
slot is returned unchanged and no subscriber notification or message is
emitted. -/
theorem addLocationToRoute_inactive_noop (d : DistFn) (now : ℕ)
    (location : Location) :
    addLocationToRoute d now location none = (none, []) ∧
    ∀ route, route.isActive = false →
      addLocationToRoute d now location (some route) = (some route, []) := by
  constructor
  · rfl
  · intro route h
    simp [addLocationToRoute, h]

/-- Demonstration finished route: a stopped route as the stale location
handler might still see it if its unsubscribe closure were never called. -/
def demoFinishedRoute : RouteTracking :=
  { id := 7
    userId := "current-user"
    startTime := 0
    endTime := some 50
    isActive := false
    points := [{ location := demoLoc, timestamp := 0, isWaypoint := true }]
    totalDistance := 0
    destination := none
    sharedWith := [] }

/-- Witness for C10 at a concrete empty slot and a concrete finished
route. -/
theorem addLocationToRoute_inactive_noop_witness :
    addLocationToRoute demoDist 60 demoLoc none = (none, []) ∧
    addLocationToRoute demoDist 60 demoLoc (some demoFinishedRoute) =
      (some demoFinishedRoute, []) :=
  ⟨(addLocationToRoute_inactive_noop demoDist 60 demoLoc).1,
   (addLocationToRoute_inactive_noop demoDist 60 demoLoc).2
     demoFinishedRoute rfl⟩

/-- C4.  When the precondition of `triggerEmergency` fails — the current
location is unobtainable, or no stored contact has `isActive = true` — the
call returns the null result and creates no partial state: the whole service
state (alert slot, heap, timers, history) is unchanged and no event is
emitted. -/
theorem triggerEmergency_precondition_null (type : EmergencyType)
    (message : Option String) (skipCountdown : Bool)
    (location : Option Location) (contacts : List EmergencyContact)
    (ok : String → Bool) (now : ℕ) (s : EmergencyState) :
    (location = none ∨ contacts.filter (fun c => c.isActive) = []) →
    triggerEmergency type message skipCountdown location contacts ok now s =
      (s, [], none) := by
  intro h
  rcases h with h | h
  · subst h
    rfl
  · cases location with
    | none => rfl
    | some loc =>
      simp [triggerEmergency, h]

/-- Witness for C4: no location, and a directory whose only contact is
inactive. -/
theorem triggerEmergency_precondition_null_witness :
    triggerEmergency EmergencyType.SOS none false none [demoContact]
        (fun _ => true) 0 emInit = (emInit, [], none) ∧
    triggerEmergency EmergencyType.SOS none true (some demoLoc) [demoContactB]
        (fun _ => true) 0 emInit = (emInit, [], none) :=
  ⟨triggerEmergency_precondition_null EmergencyType.SOS none false none
      [demoContact] (fun _ => true) 0 emInit (Or.inl rfl),
   triggerEmergency_precondition_null EmergencyType.SOS none true
      (some demoLoc) [demoContactB] (fun _ => true) 0 emInit
      (Or.inr (by decide))⟩

/-- Looking up an id after mutating it applies the mutation to the looked-up
alert. -/
theorem lookupAlert_updateAlert (aid : ℕ) (f : EmergencyAlert → EmergencyAlert)
    (alerts : List (ℕ × EmergencyAlert)) :
    lookupAlert aid (updateAlert aid f alerts) =
      (lookupAlert aid alerts).map f := by
  induction alerts with
  | nil => rfl
  | cons p ps ih =>
    obtain ⟨k, a⟩ := p
    by_cases h : k = aid
    · simp [lookupAlert, updateAlert, List.find?_cons, h]
    · simpa [lookupAlert, updateAlert, List.find?_cons, h] using ih

/-- Looking up a freshly appended id finds the appended alert. -/
theorem lookupAlert_append_fresh (aid : ℕ) (a : EmergencyAlert)
    (alerts : List (ℕ × EmergencyAlert)) (h : ∀ p ∈ alerts, p.1 ≠ aid) :
    lookupAlert aid (alerts ++ [(aid, a)]) = some a := by
  induction alerts with
  | nil => simp [lookupAlert]
  | cons p ps ih =>
    have hp : ¬ p.1 = aid := h p (List.mem_cons_self p ps)
    simp only [lookupAlert, List.cons_append, List.find?_cons,
      decide_eq_true_eq, hp, if_false]
    exact ih (fun q hq => h q (List.mem_cons_of_mem p hq))

/-- C3.  A skip-countdown trigger with an obtainable location and at least
one active contact returns the freshly created alert; every active contact's
delivery is attempted (a failing contact never aborts its siblings, since
`Promise.allSettled` runs them all and `notifyEmergencyContact` swallows its
own exception into a `false` result), the alert settles with status ACTIVE
and `contactsNotified` holds exactly the contacts whose attempt completed
without an exception.  The freshness hypothesis on `s.nextId` says ids do
not collide, which `generateId()` guarantees in the source. -/
theorem triggerEmergency_skip_active_fanout (type : EmergencyType)
    (message : Option String) (loc : Location)
    (contacts : List EmergencyContact) (ok : String → Bool) (now : ℕ)
    (s : EmergencyState)
    (hactive : contacts.filter (fun c => c.isActive) ≠ [])
    (hfresh : ∀ p ∈ s.alerts, p.1 ≠ s.nextId) :
    (triggerEmergency type message true (some loc) contacts ok now s).2.2 =
      some s.nextId ∧
    (∃ a, lookupAlert s.nextId
        (triggerEmergency type message true (some loc) contacts ok now
          s).1.alerts = some a ∧
      a.status = AlertStatus.ACTIVE ∧
      a.contactsNotified =
        ((contacts.filter (fun c => c.isActive)).filter
            (fun c => ok c.id)).map (fun c => c.id)) ∧
    (∀ c ∈ contacts.filter (fun c => c.isActive),
      EmEvent.notifyAttempt c.id ∈
        (triggerEmergency type message true (some loc) contacts ok now
          s).2.1) := by
  have hlen : ¬ (contacts.filter (fun c => c.isActive)).length = 0 := by
    simpa [List.length_eq_zero] using hactive
  refine ⟨?_, ?_, ?_⟩
  · simp [triggerEmergency, hlen]
  · refine ⟨{ id := s.nextId, userId := "current-user", type := type,
              location := loc, message := resolveMessage type message,
              timestamp := now, status := AlertStatus.ACTIVE,
              contactsNotified :=
                ((contacts.filter (fun c => c.isActive)).filter
                  (fun c => ok c.id)).map (fun c => c.id) }, ?_, rfl, rfl⟩
    simp only [triggerEmergency, hlen, if_false, if_true,
      executeEmergencyAlert]
    rw [lookupAlert_updateAlert, lookupAlert_append_fresh _ _ _ hfresh]
    rfl
  · intro c hc
    simp only [triggerEmergency, hlen, if_false, if_true,
      executeEmergencyAlert]
    refine List.mem_append_left _ ?_
    refine List.mem_cons_of_mem _ ?_
    refine List.mem_append_left _ ?_
    refine List.mem_append_left _ ?_
    exact List.mem_map_of_mem _ hc

/-- Oracle for the C3 witness: delivery to contact A succeeds, delivery to
contact C fails with a swallowed exception. -/
def demoOk : String → Bool := fun cid => cid = "A"

/-- Second active demonstration contact (whose delivery the `demoOk` oracle
fails). -/
def demoContactC : EmergencyContact :=
  { id := "C"
    name := "Carol"
    phoneNumber := "333"
    email := none
    relationship := "Family"
    isPrimary := false
    isActive := true
    createdAt := 0
    updatedAt := 0 }

/-- Witness for C3: contacts A (active, delivery succeeds), B (inactive,
never attempted) and C (active, delivery fails): the alert is returned, both
active contacts are attempted, and `contactsNotified` is exactly A. -/
theorem triggerEmergency_skip_active_fanout_witness :
    (triggerEmergency EmergencyType.SOS none true (some demoLoc)
        [demoContact, demoContactB, demoContactC] demoOk 0 emInit).2.2 =
      some 0 ∧
    (∃ a, lookupAlert 0
        (triggerEmergency EmergencyType.SOS none true (some demoLoc)
          [demoContact, demoContactB, demoContactC] demoOk 0
          emInit).1.alerts = some a ∧
      a.status = AlertStatus.ACTIVE ∧
      a.contactsNotified =
        (([demoContact, demoContactB, demoContactC].filter
              (fun c => c.isActive)).filter (fun c => demoOk c.id)).map
          (fun c => c.id)) ∧
    (∀ c ∈ [demoContact, demoContactB, demoContactC].filter
        (fun c => c.isActive),
      EmEvent.notifyAttempt c.id ∈
        (triggerEmergency EmergencyType.SOS none true (some demoLoc)
          [demoContact, demoContactB, demoContactC] demoOk 0 emInit).2.1) :=
  triggerEmergency_skip_active_fanout EmergencyType.SOS none demoLoc
    [demoContact, demoContactB, demoContactC] demoOk 0 emInit (by decide)
    (by intro p hp; simp [emInit] at hp)

/-- Demonstration state with one countdown in flight: the result of a single
countdown trigger (contact A active, location available) from the initial
state. -/
def demoCountdownState : EmergencyState :=
  (triggerEmergency EmergencyType.SOS none false (some demoLoc) [demoContact]
    (fun _ => true) 0 emInit).1

/-- C6 counterexample.  Cancelling an in-flight countdown returns `true` and
sets status CANCELLED, but `cancelEmergencyCountdown` never clears
`this.activeAlert`, so `getActiveAlert()` still returns the CANCELLED alert
instead of null: the slot does not collapse to empty on this terminal
state. -/
theorem cancel_keeps_slot_occupied :
    (cancelEmergencyCountdown demoCountdownState).2.2 = true ∧
    getActiveAlert (cancelEmergencyCountdown demoCountdownState).1 ≠ none ∧
    (getActiveAlert (cancelEmergencyCountdown demoCountdownState).1).map
        (fun a => a.status) = some AlertStatus.CANCELLED := by
  decide

/-- C6 amended.  A successful `resolveEmergency` empties the active-alert
slot, as claimed; a successful `cancelEmergencyCountdown`, however, leaves
the slot holding the alert with status CANCELLED (it is only vacated by a
later trigger overwriting it or by `cleanup`). -/
theorem terminal_state_slot (alertId : ℕ) (contacts : List EmergencyContact)
    (s : EmergencyState) :
    ((resolveEmergency alertId contacts s).2.2 = true →
      getActiveAlert (resolveEmergency alertId contacts s).1 = none) ∧
    (∀ ct aid al, s.countdownTimer = some ct → s.activeAlert = some aid →
      lookupAlert aid s.alerts = some al →
      (cancelEmergencyCountdown s).2.2 = true ∧
      getActiveAlert (cancelEmergencyCountdown s).1 =
        some { al with status := AlertStatus.CANCELLED }) := by
  constructor
  · intro h
    unfold resolveEmergency at h ⊢
    split at h
    · simp at h
    · split at h
      · split at h
        · simp at h
        · simp [getActiveAlert, *]
      · simp at h
  · intro ct aid al hct ha hl
    have h1 : cancelEmergencyCountdown s =
        ({ s with
             timers := s.timers.filter (fun p => p.1 ≠ ct)
             countdownTimer := none
             alerts :=
               updateAlert aid
                 (fun a => { a with status := AlertStatus.CANCELLED })
                 s.alerts },
         [EmEvent.emergencyCallback aid], true) := by
      unfold cancelEmergencyCountdown
      rw [hct]
      simp only [ha]
    rw [h1]
    refine ⟨rfl, ?_⟩
    simp only [getActiveAlert, ha]
    rw [lookupAlert_updateAlert, hl]
    rfl

/-- Witness for the amended C6 theorem: a resolve of the matching alert id
on a fan-out state empties the slot, and a cancel on the countdown state
keeps the CANCELLED alert in the slot. -/
theorem terminal_state_slot_witness :
    getActiveAlert
        (resolveEmergency 0 [demoContact]
          (triggerEmergency EmergencyType.SOS none true (some demoLoc)
            [demoContact] (fun _ => true) 0 emInit).1).1 = none ∧
    (cancelEmergencyCountdown demoCountdownState).2.2 = true ∧
    getActiveAlert (cancelEmergencyCountdown demoCountdownState).1 =
      some { (lookupAlert 0 demoCountdownState.alerts).get (by decide) with
             status := AlertStatus.CANCELLED } :=
  ⟨(terminal_state_slot 0 [demoContact]
      (triggerEmergency EmergencyType.SOS none true (some demoLoc)
        [demoContact] (fun _ => true) 0 emInit).1).1 (by decide),
   ((terminal_state_slot 0 [demoContact] demoCountdownState).2 0 0
      ((lookupAlert 0 demoCountdownState.alerts).get (by decide))
      (by decide) (by decide) (by
        rw [Option.some_get])).1,
   ((terminal_state_slot 0 [demoContact] demoCountdownState).2 0 0
      ((lookupAlert 0 demoCountdownState.alerts).get (by decide))
      (by decide) (by decide) (by
        rw [Option.some_get])).2⟩

/-- Number of terminal stopped messages addressed to a contact id in an
event list. -/
def stoppedCount (events : List RouteEvent) (cid : String) : ℕ :=
  events.count (RouteEvent.shareMessage ShareAction.stopped cid)

/-- Counting the stopped messages produced for a shared contact id counts
the directory entries with that id. -/
theorem count_stopped_map_mem (contacts : List EmergencyContact)
    (shared : List String) (cid : String) (h : cid ∈ shared) :
    ((contacts.filter (fun c => shared.contains c.id)).map
        (fun c => RouteEvent.shareMessage ShareAction.stopped c.id)).count
      (RouteEvent.shareMessage ShareAction.stopped cid) =
      (contacts.filter (fun c => c.id = cid)).length := by
  induction contacts with
  | nil => rfl
  | cons c cs ih =>
    by_cases hc : c.id ∈ shared
    · have hc' : shared.contains c.id = true := List.elem_eq_true_of_mem hc
      by_cases hid : c.id = cid
      · simpa [List.filter_cons, hc, hc', hid, h, List.count_cons] using ih
      · simpa [List.filter_cons, hc, hc', hid, List.count_cons] using ih
    · have hc' : ¬ shared.contains c.id = true := fun hm =>
        hc (List.mem_of_elem_eq_true hm)
      have hid : ¬ c.id = cid := by
        intro he
        rw [he] at hc
        exact hc h
      simpa [List.filter_cons, hc, hc', hid] using ih

/-- No stopped message is produced for an id outside `sharedWith`. -/
theorem count_stopped_map_not_mem (contacts : List EmergencyContact)
    (shared : List String) (cid : String) (h : cid ∉ shared) :
    ((contacts.filter (fun c => shared.contains c.id)).map
        (fun c => RouteEvent.shareMessage ShareAction.stopped c.id)).count
      (RouteEvent.shareMessage ShareAction.stopped cid) = 0 := by
  induction contacts with
  | nil => rfl
  | cons c cs ih =>
    by_cases hc : c.id ∈ shared
    · have hc' : shared.contains c.id = true := List.elem_eq_true_of_mem hc
      have hid : ¬ c.id = cid := by
        intro he
        rw [he] at hc
        exact h hc
      simpa [List.filter_cons, hc, hc', hid, List.count_cons] using ih
    · have hc' : ¬ shared.contains c.id = true := fun hm =>
        hc (List.mem_of_elem_eq_true hm)
      simpa [List.filter_cons, hc, hc'] using ih

/-- C8.  Stopping with no active route returns false and has no effect at
all; stopping an active route with non-empty `sharedWith` succeeds, clears
the slot, and attempts exactly one terminal stopped notification per shared
contact — under the hypotheses that the last-known location is available
(otherwise `sendRouteShareMessage` returns before sending anything; it is
available in every reachable tracking state because `startRouteTracking`
required a location fix, which populates the cache) and that every id in
`sharedWith` names exactly one directory contact.  No message goes to an id
outside `sharedWith`. -/
theorem stopRouteTracking_spec :
    (∀ now contacts lastKnown s, s.activeRoute = none →
      stopRouteTracking now contacts lastKnown s = (s, [], false)) ∧
    (∀ now contacts loc s route, s.activeRoute = some route →
      route.sharedWith ≠ [] →
      (∀ cid ∈ route.sharedWith,
        (contacts.filter (fun c => c.id = cid)).length = 1) →
      (stopRouteTracking now contacts (some loc) s).2.2 = true ∧
      (stopRouteTracking now contacts (some loc) s).1.activeRoute = none ∧
      (∀ cid ∈ route.sharedWith,
        stoppedCount (stopRouteTracking now contacts (some loc) s).2.1 cid =
          1) ∧
      (∀ cid, cid ∉ route.sharedWith →
        stoppedCount (stopRouteTracking now contacts (some loc) s).2.1 cid =
          0)) := by
  constructor
  · intro now contacts lastKnown s hs
    unfold stopRouteTracking
    rw [hs]
  · intro now contacts loc s route hs hw hdir
    have hlen : ¬ route.sharedWith.length = 0 := by
      simpa [List.length_eq_zero] using hw
    have hpos : 0 < route.sharedWith.length := Nat.pos_of_ne_zero hlen
    have hstop : stopRouteTracking now contacts (some loc) s =
        ({ activeRoute := none
           trackingIntervalLive := false
           sharingIntervalLive := false
           locationTrackingOn := false },
         (contacts.filter (fun c => route.sharedWith.contains c.id)).map
            (fun c => RouteEvent.shareMessage ShareAction.stopped c.id) ++
           [RouteEvent.routeCallback route.id],
         true) := by
      unfold stopRouteTracking
      rw [hs]
      simp [notifyTrackingComplete, sendRouteShareMessage, hlen, hpos]
    rw [hstop]
    refine ⟨rfl, rfl, ?_, ?_⟩
    · intro cid hcid
      simp only [stoppedCount, List.count_append,
        count_stopped_map_mem contacts route.sharedWith cid hcid,
        hdir cid hcid]
      simp [List.count_cons]
    · intro cid hcid
      simp only [stoppedCount, List.count_append,
        count_stopped_map_not_mem contacts route.sharedWith cid hcid]
      simp [List.count_cons]

/-- Demonstration active route shared with contact A. -/
def demoSharedRoute : RouteTracking :=
  { id := 3
    userId := "current-user"
    startTime := 0
    endTime := none
    isActive := true
    points := [{ location := demoLoc, timestamp := 0, isWaypoint := true }]
    totalDistance := 0
    destination := none
    sharedWith := ["A"] }

/-- Demonstration route-service state with `demoSharedRoute` in the slot. -/
def demoSharedState : RouteServiceState :=
  { activeRoute := some demoSharedRoute
    trackingIntervalLive := false
    sharingIntervalLive := true
    locationTrackingOn := true }

/-- Witness for C8: stopping the empty slot is a no-op failure, and stopping
the route shared with contact A sends exactly one stopped message to A and
none to the unshared id B. -/
theorem stopRouteTracking_spec_witness :
    stopRouteTracking 9 [demoContact, demoContactB] (some demoLoc) routeInit =
      (routeInit, [], false) ∧
    (stopRouteTracking 9 [demoContact, demoContactB] (some demoLoc)
        demoSharedState).2.2 = true ∧
    (stopRouteTracking 9 [demoContact, demoContactB] (some demoLoc)
        demoSharedState).1.activeRoute = none ∧
    stoppedCount
        (stopRouteTracking 9 [demoContact, demoContactB] (some demoLoc)
          demoSharedState).2.1 "A" = 1 ∧
    stoppedCount
        (stopRouteTracking 9 [demoContact, demoContactB] (some demoLoc)
          demoSharedState).2.1 "B" = 0 :=
  ⟨stopRouteTracking_spec.1 9 [demoContact, demoContactB] (some demoLoc)
      routeInit rfl,
   (stopRouteTracking_spec.2 9 [demoContact, demoContactB] demoLoc
      demoSharedState demoSharedRoute rfl (by decide) (by decide)).1,
   (stopRouteTracking_spec.2 9 [demoContact, demoContactB] demoLoc
      demoSharedState demoSharedRoute rfl (by decide) (by decide)).2.1,
   (stopRouteTracking_spec.2 9 [demoContact, demoContactB] demoLoc
      demoSharedState demoSharedRoute rfl (by decide) (by decide)).2.2.1 "A"
      (by decide),
   (stopRouteTracking_spec.2 9 [demoContact, demoContactB] demoLoc
      demoSharedState demoSharedRoute rfl (by decide) (by decide)).2.2.2 "B"
      (by decide)⟩

/-- States from which a given alert id can never again reach notification
fan-out: no live interval has captured it, and its id is below the fresh-id
counter so that no later trigger can reuse it. -/
def fanOutShielded (aid : ℕ) (s : EmergencyState) : Prop :=
  (∀ p ∈ s.timers, p.2.alertId ≠ aid) ∧ aid < s.nextId

/-- Quick-dial events are never fan-out events. -/
theorem fanOut_not_mem_quickDialEvents (o : Option EmergencyAlert) (x : ℕ) :
    EmEvent.fanOutRun x ∉ quickDialEvents o := by
  cases o with
  | none => exact List.not_mem_nil _
  | some a =>
    rcases hq : quickDialOf a.type with _ | n
    · simp [quickDialEvents, hq]
    · simp [quickDialEvents, hq]

/-- Fan-out events emitted by `executeEmergencyAlert` name exactly the alert
it was called for. -/
theorem executeEmergencyAlert_fanOut_eq (ok : String → Bool)
    (contacts : List EmergencyContact) (bid : ℕ) (s : EmergencyState)
    (x : ℕ) :
    EmEvent.fanOutRun x ∈ (executeEmergencyAlert ok contacts bid s).2 →
      x = bid := by
  intro hx
  simp only [executeEmergencyAlert] at hx
  rcases List.mem_cons.mp hx with h | h
  · injection h
  · exfalso
    rcases List.mem_append.mp h with h | h
    · rcases List.mem_append.mp h with h | h
      · rcases List.mem_map.mp h with ⟨c, _, hc⟩
        exact EmEvent.noConfusion hc
      · exact fanOut_not_mem_quickDialEvents _ _ h
    · rcases List.mem_singleton.mp h with h
      exact EmEvent.noConfusion h

/-- Triggering preserves the shield: a new trigger only ever fans out or
schedules the freshly allocated id. -/
theorem triggerEmergency_shielded (aid : ℕ) (type : EmergencyType)
    (message : Option String) (skipCountdown : Bool)
    (location : Option Location) (contacts : List EmergencyContact)
    (ok : String → Bool) (now : ℕ) (s : EmergencyState)
    (h : fanOutShielded aid s) :
    fanOutShielded aid
        (triggerEmergency type message skipCountdown location contacts ok now
          s).1 ∧
    EmEvent.fanOutRun aid ∉
      (triggerEmergency type message skipCountdown location contacts ok now
        s).2.1 := by
  obtain ⟨ht, hn⟩ := h
  cases location with
  | none => exact ⟨⟨ht, hn⟩, List.not_mem_nil _⟩
  | some loc =>
    by_cases h0 : (contacts.filter (fun c => c.isActive)).length = 0
    · constructor
      · have hs : (triggerEmergency type message skipCountdown (some loc)
            contacts ok now s).1 = s := by
          simp [triggerEmergency, h0]
        rw [hs]
        exact ⟨ht, hn⟩
      · simp [triggerEmergency, h0]
    · have hne : aid ≠ s.nextId := Nat.ne_of_lt hn
      cases skipCountdown with
      | true =>
        constructor
        · constructor
          · intro p hp
            simp only [triggerEmergency, h0, if_false, if_true,
              executeEmergencyAlert] at hp
            exact ht p hp
          · simp only [triggerEmergency, h0, if_false, if_true,
              executeEmergencyAlert]
            exact Nat.lt_succ_of_lt hn
        · intro hx
          simp only [triggerEmergency, h0, if_false, if_true] at hx
          rcases List.mem_append.mp hx with hx | hx
          · exact hne (executeEmergencyAlert_fanOut_eq _ _ _ _ _ hx)
          · rcases List.mem_singleton.mp hx with hx
            exact EmEvent.noConfusion hx
      | false =>
        constructor
        · constructor
          · intro p hp
            simp only [triggerEmergency, h0, if_false,
              startEmergencyCountdown] at hp
            rcases List.mem_append.mp hp with hp | hp
            · exact ht p hp
            · rcases List.mem_singleton.mp hp with hp
              rw [hp]
              exact fun he => hne he.symm
          · simp only [triggerEmergency, h0, if_false,
              startEmergencyCountdown]
            exact Nat.lt_succ_of_lt hn
        · intro hx
          simp only [triggerEmergency, h0, if_false] at hx
          rcases List.mem_append.mp hx with hx | hx
          · exact List.not_mem_nil _ hx
          · rcases List.mem_singleton.mp hx with hx
            exact EmEvent.noConfusion hx

/-- Executing a fan-out touches only the alert heap. -/
theorem executeEmergencyAlert_timers (ok : String → Bool)
    (contacts : List EmergencyContact) (bid : ℕ) (s : EmergencyState) :
    (executeEmergencyAlert ok contacts bid s).1.timers = s.timers := rfl

/-- Executing a fan-out does not advance the id counter. -/
theorem executeEmergencyAlert_nextId (ok : String → Bool)
    (contacts : List EmergencyContact) (bid : ℕ) (s : EmergencyState) :
    (executeEmergencyAlert ok contacts bid s).1.nextId = s.nextId := rfl

/-- A timer firing preserves the shield: it can only fan out an alert
captured by a live interval, and it never adds intervals. -/
theorem tickTimer_shielded (aid : ℕ) (ok : String → Bool) (tid : ℕ)
    (s : EmergencyState) (h : fanOutShielded aid s) :
    fanOutShielded aid (tickTimer ok tid s).1 ∧
    EmEvent.fanOutRun aid ∉ (tickTimer ok tid s).2 := by
  obtain ⟨ht, hn⟩ := h
  rcases hf : s.timers.find? (fun p => p.1 = tid) with _ | t
  · constructor
    · have hs : (tickTimer ok tid s).1 = s := by simp [tickTimer, hf]
      rw [hs]
      exact ⟨ht, hn⟩
    · have hs : (tickTimer ok tid s).2 = [] := by simp [tickTimer, hf]
      rw [hs]
      exact List.not_mem_nil _
  · have htmem : t ∈ s.timers := List.mem_of_find?_eq_some hf
    have htid : t.2.alertId ≠ aid := ht t htmem
    have htimers1 : ∀ p ∈ s.timers.map
        (fun p => if p.1 = tid then
          (p.1, { p.2 with countdown := t.2.countdown - 1 }) else p),
        p.2.alertId ≠ aid := by
      intro p hp
      rcases List.mem_map.mp hp with ⟨q, hq, rfl⟩
      by_cases hq1 : q.1 = tid
      · simpa [hq1] using ht q hq
      · simpa [hq1] using ht q hq
    by_cases hcnt : t.2.countdown - 1 ≤ 0
    · rcases hct : s.countdownTimer with _ | ct
      · have hred : tickTimer ok tid s =
            executeEmergencyAlert ok t.2.contacts t.2.alertId
              { s with
                  timers := s.timers.map
                    (fun p => if p.1 = tid then
                      (p.1, { p.2 with countdown := t.2.countdown - 1 })
                    else p)
                  countdownTimer := none } := by
          simp [tickTimer, hf, hcnt, hct]
        rw [hred]
        refine ⟨⟨?_, ?_⟩, ?_⟩
        · rw [executeEmergencyAlert_timers]
          exact htimers1
        · rw [executeEmergencyAlert_nextId]
          exact hn
        · intro hx
          exact htid (executeEmergencyAlert_fanOut_eq _ _ _ _ _ hx).symm
      · have hred : tickTimer ok tid s =
            executeEmergencyAlert ok t.2.contacts t.2.alertId
              { s with
                  timers := (s.timers.map
                    (fun p => if p.1 = tid then
                      (p.1, { p.2 with countdown := t.2.countdown - 1 })
                    else p)).filter (fun p => p.1 ≠ ct)
                  countdownTimer := none } := by
          simp [tickTimer, hf, hcnt, hct]
        rw [hred]
        refine ⟨⟨?_, ?_⟩, ?_⟩
        · rw [executeEmergencyAlert_timers]
          intro p hp
          exact htimers1 p (List.mem_of_mem_filter hp)
        · rw [executeEmergencyAlert_nextId]
          exact hn
        · intro hx
          exact htid (executeEmergencyAlert_fanOut_eq _ _ _ _ _ hx).symm
    · have hred : tickTimer ok tid s =
          ({ s with
               timers := s.timers.map
                 (fun p => if p.1 = tid then
                   (p.1, { p.2 with countdown := t.2.countdown - 1 })
                 else p) },
           []) := by
        simp [tickTimer, hf, hcnt]
      rw [hred]
      exact ⟨⟨htimers1, hn⟩, List.not_mem_nil _⟩

/-- Cancelling preserves the shield: it only removes an interval and emits a
subscriber callback. -/
theorem cancelEmergencyCountdown_shielded (aid : ℕ) (s : EmergencyState)
    (h : fanOutShielded aid s) :
    fanOutShielded aid (cancelEmergencyCountdown s).1 ∧
    EmEvent.fanOutRun aid ∉ (cancelEmergencyCountdown s).2.1 := by
  obtain ⟨ht, hn⟩ := h
  rcases hct : s.countdownTimer with _ | ct
  · have hs : cancelEmergencyCountdown s = (s, [], false) := by
      simp [cancelEmergencyCountdown, hct]
    rw [hs]
    exact ⟨⟨ht, hn⟩, List.not_mem_nil _⟩
  · have hsub : ∀ p ∈ s.timers.filter (fun p => p.1 ≠ ct),
        p.2.alertId ≠ aid :=
      fun p hp => ht p (List.mem_of_mem_filter hp)
    rcases hA : s.activeAlert with _ | a2
    · have hs : cancelEmergencyCountdown s =
          ({ s with
               timers := s.timers.filter (fun p => p.1 ≠ ct)
               countdownTimer := none }, [], true) := by
        simp [cancelEmergencyCountdown, hct, hA]
      rw [hs]
      exact ⟨⟨hsub, hn⟩, List.not_mem_nil _⟩
    · have hs : cancelEmergencyCountdown s =
          ({ s with
               timers := s.timers.filter (fun p => p.1 ≠ ct)
               countdownTimer := none
               alerts := updateAlert a2
                 (fun a => { a with status := AlertStatus.CANCELLED })
                 s.alerts },
           [EmEvent.emergencyCallback a2], true) := by
        simp [cancelEmergencyCountdown, hct, hA]
      rw [hs]
      refine ⟨⟨hsub, hn⟩, ?_⟩
      intro hx
      rcases List.mem_singleton.mp hx with hx
      exact EmEvent.noConfusion hx

/-- Resolving preserves the shield: timers are untouched and only callback
and resolution-message events are emitted. -/
theorem resolveEmergency_shielded (aid alertId : ℕ)
    (contacts : List EmergencyContact) (s : EmergencyState)
    (h : fanOutShielded aid s) :
    fanOutShielded aid (resolveEmergency alertId contacts s).1 ∧
    EmEvent.fanOutRun aid ∉ (resolveEmergency alertId contacts s).2.1 := by
  obtain ⟨ht, hn⟩ := h
  rcases hA : s.activeAlert with _ | a2
  · have hs : resolveEmergency alertId contacts s = (s, [], false) := by
      simp [resolveEmergency, hA]
    rw [hs]
    exact ⟨⟨ht, hn⟩, List.not_mem_nil _⟩
  · by_cases he : a2 = alertId
    · rcases hL : lookupAlert a2 s.alerts with _ | a
      all_goals rw [he] at hL
      · have hs : resolveEmergency alertId contacts s = (s, [], false) := by
          simp [resolveEmergency, hA, he, hL]
        rw [hs]
        exact ⟨⟨ht, hn⟩, List.not_mem_nil _⟩
      · have hs : resolveEmergency alertId contacts s =
            ({ s with
                 alerts := updateAlert a2
                   (fun x => { x with status := AlertStatus.RESOLVED })
                   s.alerts
                 activeAlert := none },
             EmEvent.emergencyCallback a2 ::
               (contacts.filter
                 (fun c => a.contactsNotified.contains c.id)).map
                 (fun c => EmEvent.resolutionSms c.id),
             true) := by
          simp [resolveEmergency, hA, he, hL]
        rw [hs]
        refine ⟨⟨ht, hn⟩, ?_⟩
        intro hx
        rcases List.mem_cons.mp hx with hx | hx
        · exact EmEvent.noConfusion hx
        · rcases List.mem_map.mp hx with ⟨c, _, hc⟩
          exact EmEvent.noConfusion hc
    · have hs : resolveEmergency alertId contacts s = (s, [], false) := by
        simp [resolveEmergency, hA, he]
      rw [hs]
      exact ⟨⟨ht, hn⟩, List.not_mem_nil _⟩

/-- Every single operation preserves the shield and emits no fan-out for a
shielded alert. -/
theorem applyEmOp_shielded (aid : ℕ) (s : EmergencyState) (op : EmOp)
    (h : fanOutShielded aid s) :
    fanOutShielded aid (applyEmOp s op).1 ∧
    EmEvent.fanOutRun aid ∉ (applyEmOp s op).2 := by
  cases op with
  | trigger type message skipCountdown location contacts ok now =>
    exact triggerEmergency_shielded aid type message skipCountdown location
      contacts ok now s h
  | tick ok tid => exact tickTimer_shielded aid ok tid s h
  | cancel => exact cancelEmergencyCountdown_shielded aid s h
  | resolve alertId contacts =>
    exact resolveEmergency_shielded aid alertId contacts s h

/-- No sequence of further operations ever fans out a shielded alert. -/
theorem runEmOps_shielded (aid : ℕ) :
    ∀ (ops : List EmOp) (s : EmergencyState), fanOutShielded aid s →
      EmEvent.fanOutRun aid ∉ (runEmOps s ops).2 := by
  intro ops
  induction ops with
  | nil =>
    intro s _
    exact List.not_mem_nil _
  | cons op ops ih =>
    intro s h
    have h1 := applyEmOp_shielded aid s op h
    intro hx
    rcases List.mem_append.mp hx with hx | hx
    · exact h1.2 hx
    · exact ih _ h1.1 hx

/-- C5.  Cancelling while a countdown is in flight returns true, marks the
alert CANCELLED, emits no fan-out itself, and — because the interval is
cleared — no continuation of the run (ticks, triggers, cancels, resolves)
can ever fan out that alert.  With no countdown in flight the call is a
no-op returning false.  The hypotheses describe a state with exactly the one
pending countdown produced by a single `triggerEmergency`, the alert id
allocated below the fresh-id counter. -/
theorem cancelCountdown_spec :
    (∀ s, s.countdownTimer = none →
      cancelEmergencyCountdown s = (s, [], false)) ∧
    (∀ s ct tm aid al,
      s.countdownTimer = some ct → s.timers = [(ct, tm)] →
      s.activeAlert = some aid → tm.alertId = aid → aid < s.nextId →
      lookupAlert aid s.alerts = some al →
      (cancelEmergencyCountdown s).2.2 = true ∧
      lookupAlert aid (cancelEmergencyCountdown s).1.alerts =
        some { al with status := AlertStatus.CANCELLED } ∧
      EmEvent.fanOutRun aid ∉ (cancelEmergencyCountdown s).2.1 ∧
      (∀ ops, EmEvent.fanOutRun aid ∉
        (runEmOps (cancelEmergencyCountdown s).1 ops).2)) := by
  constructor
  · intro s h
    unfold cancelEmergencyCountdown
    rw [h]
  · intro s ct tm aid al hct htm hA htmaid hn hal
    have h1 : cancelEmergencyCountdown s =
        ({ s with
             timers := s.timers.filter (fun p => p.1 ≠ ct)
             countdownTimer := none
             alerts :=
               updateAlert aid
                 (fun a => { a with status := AlertStatus.CANCELLED })
                 s.alerts },
         [EmEvent.emergencyCallback aid], true) := by
      unfold cancelEmergencyCountdown
      rw [hct]
      simp only [hA]
    rw [h1]
    have htimers : s.timers.filter (fun p => p.1 ≠ ct) = [] := by
      rw [htm]
      simp
    refine ⟨rfl, ?_, ?_, ?_⟩
    · rw [lookupAlert_updateAlert, hal]
      rfl
    · intro hx
      rcases List.mem_singleton.mp hx with hx
      exact EmEvent.noConfusion hx
    · intro ops
      refine runEmOps_shielded aid ops _ ⟨?_, hn⟩
      intro p hp
      rw [htimers] at hp
      exact absurd hp (List.not_mem_nil p)

/-- Alert object created by the single countdown trigger behind
`demoCountdownState`. -/
def demoTriggeredAlert : EmergencyAlert :=
  { id := 0
    userId := "current-user"
    type := EmergencyType.SOS
    location := demoLoc
    message := resolveMessage EmergencyType.SOS none
    timestamp := 0
    status := AlertStatus.ACTIVE
    contactsNotified := [] }

/-- Witness for C5 on the concrete single-countdown state (and the no-op
case on the initial state). -/
theorem cancelCountdown_spec_witness :
    cancelEmergencyCountdown emInit = (emInit, [], false) ∧
    (cancelEmergencyCountdown demoCountdownState).2.2 = true ∧
    lookupAlert 0 (cancelEmergencyCountdown demoCountdownState).1.alerts =
      some { demoTriggeredAlert with status := AlertStatus.CANCELLED } ∧
    EmEvent.fanOutRun 0 ∉ (cancelEmergencyCountdown demoCountdownState).2.1 ∧
    (∀ ops, EmEvent.fanOutRun 0 ∉
      (runEmOps (cancelEmergencyCountdown demoCountdownState).1 ops).2) :=
  ⟨cancelCountdown_spec.1 emInit rfl,
   (cancelCountdown_spec.2 demoCountdownState 0
      { alertId := 0, contacts := [demoContact],
        countdown := TIMEOUTS.EMERGENCY_COUNTDOWN } 0 demoTriggeredAlert
      (by decide) (by decide) (by decide) (by decide) (by decide)
      (by decide)).1,
   (cancelCountdown_spec.2 demoCountdownState 0
      { alertId := 0, contacts := [demoContact],
        countdown := TIMEOUTS.EMERGENCY_COUNTDOWN } 0 demoTriggeredAlert
      (by decide) (by decide) (by decide) (by decide) (by decide)
      (by decide)).2.1,
   (cancelCountdown_spec.2 demoCountdownState 0
      { alertId := 0, contacts := [demoContact],
        countdown := TIMEOUTS.EMERGENCY_COUNTDOWN } 0 demoTriggeredAlert
      (by decide) (by decide) (by decide) (by decide) (by decide)
      (by decide)).2.2.1,
   (cancelCountdown_spec.2 demoCountdownState 0
      { alertId := 0, contacts := [demoContact],
        countdown := TIMEOUTS.EMERGENCY_COUNTDOWN } 0 demoTriggeredAlert
      (by decide) (by decide) (by decide) (by decide) (by decide)
      (by decide)).2.2.2⟩

/-- Trace exhibiting the double-trigger bug: a second countdown trigger
while the first alert's countdown is still running, followed by twelve
firings of the first interval (whose handle was overwritten, never
cleared). -/
def doubleTriggerTrace : List EmOp :=
  [EmOp.trigger EmergencyType.SOS none false (some demoLoc) [demoContact]
     (fun _ => true) 0,
   EmOp.trigger EmergencyType.PANIC none false (some demoLoc) [demoContact]
     (fun _ => true) 1] ++
  List.replicate 12 (EmOp.tick (fun _ => true) 0)

/-- C2 evaluation.  `triggerEmergency` overwrites `this.countdownTimer`
without clearing the interval already stored there, so the first alert's
interval (timer id 0) stays live after the second trigger.  When it reaches
zero it clears whatever the field holds — the SECOND alert's timer — and
then executes fan-out for the superseded FIRST alert; with its own interval
never cleared it keeps firing, fanning the first alert out again on every
subsequent tick (three times in this trace), while the second, current alert
never reaches fan-out at all and its timer is gone. -/
theorem doubleTrigger_orphan_fanout :
    ((runEmOps emInit doubleTriggerTrace).2.count (EmEvent.fanOutRun 0) =
      3) ∧
    ((runEmOps emInit doubleTriggerTrace).2.count (EmEvent.fanOutRun 1) =
      0) ∧
    (runEmOps emInit doubleTriggerTrace).1.activeAlert = some 1 ∧
    (∃ p ∈ (runEmOps emInit doubleTriggerTrace).1.timers,
      p.2.alertId = 0) ∧
    (∀ p ∈ (runEmOps emInit doubleTriggerTrace).1.timers, p.1 ≠ 1) := by
  decide

/-- Truncation keeps the just-appended point as the last element. -/
theorem truncPoints_getLast?_concat (xs : List RoutePoint) (a : RoutePoint) :
    (truncPoints (xs ++ [a])).getLast? = some a := by
  unfold truncPoints
  split
  · rename_i hlt
    have hlen : (xs ++ [a]).length = xs.length + 1 := by simp
    have hle : (xs ++ [a]).length - ROUTE_TRACKING.MAX_POINTS_STORED ≤
        xs.length := by
      have hmax : 0 < ROUTE_TRACKING.MAX_POINTS_STORED := by
        norm_num [ROUTE_TRACKING.MAX_POINTS_STORED]
      omega
    rw [List.drop_append_of_le_length hle, List.getLast?_concat]
  · exact List.getLast?_concat xs

/-- Truncation caps the length at `MAX_POINTS_STORED`. -/
theorem truncPoints_length (pts : List RoutePoint) :
    (truncPoints pts).length =
      min pts.length ROUTE_TRACKING.MAX_POINTS_STORED := by
  unfold truncPoints
  split
  · rename_i h
    rw [List.length_drop]
    omega
  · rename_i h
    omega

/-- Truncation drops oldest points first: the result is a suffix of the
input. -/
theorem truncPoints_suffix (pts : List RoutePoint) :
    (truncPoints pts).IsSuffix pts := by
  unfold truncPoints
  split
  · exact List.drop_suffix _ _
  · exact List.suffix_refl _

/-- Acceptance branch of `addLocationToRoute`: an update at least the
minimum distance from the last stored point appends the point (with cap
truncation) and accumulates that distance. -/
theorem addLocationToRoute_accept (d : DistFn) (now : ℕ) (loc : Location)
    (route : RouteTracking) (lp : RoutePoint)
    (hact : route.isActive = true)
    (hlast : route.points.getLast? = some lp)
    (hdist : ROUTE_TRACKING.MIN_DISTANCE_BETWEEN_POINTS ≤ d lp.location loc) :
    addLocationToRoute d now loc (some route) =
      (some { route with
                points := truncPoints (route.points ++
                  [{ location := loc, timestamp := now, isWaypoint := false }])
                totalDistance := route.totalDistance + d lp.location loc },
       [RouteEvent.routeCallback route.id]) := by
  simp [addLocationToRoute, hact, hlast, hdist]

/-- Rejection branch of `addLocationToRoute`: a sub-threshold update changes
nothing and emits nothing. -/
theorem addLocationToRoute_reject (d : DistFn) (now : ℕ) (loc : Location)
    (route : RouteTracking) (lp : RoutePoint)
    (hact : route.isActive = true)
    (hlast : route.points.getLast? = some lp)
    (hdist : d lp.location loc < ROUTE_TRACKING.MIN_DISTANCE_BETWEEN_POINTS) :
    addLocationToRoute d now loc (some route) = (some route, []) := by
  have h' : ¬ ROUTE_TRACKING.MIN_DISTANCE_BETWEEN_POINTS ≤ d lp.location loc :=
    not_le.mpr hdist
  simp [addLocationToRoute, hact, hlast, h']

/-- `addWaypoint` on an active route force-appends the waypoint with no
distance accounting and no truncation. -/
theorem addWaypoint_some (now : ℕ) (loc : Location)
    (lastKnown : Option Location) (route : RouteTracking)
    (hact : route.isActive = true) :
    addWaypoint now (some loc) lastKnown (some route) =
      (some { route with points := route.points ++
                [{ location := loc, timestamp := now, isWaypoint := true }] },
       [RouteEvent.routeCallback route.id], true) := by
  simp [addWaypoint, hact, Option.orElse]

/-- Unfolding equation: consecutive-distance sum over at least two points. -/
theorem consecDistSum_cons_cons (d : DistFn) (p q : RoutePoint)
    (rest : List RoutePoint) :
    consecDistSum d (p :: q :: rest) =
      d p.location q.location + consecDistSum d (q :: rest) := rfl

/-- Unfolding equation: a single point spans no distance. -/
theorem consecDistSum_single (d : DistFn) (p : RoutePoint) :
    consecDistSum d [p] = 0 := rfl

/-- Core accounting invariant of the acceptance filter: running any sequence
of raw updates (no waypoints) accumulates exactly the consecutive-point
distances along the filter-accepted subsequence, reference point moving with
each acceptance. -/
theorem runUpdates_totalDistance (d : DistFn) :
    ∀ (us : List (ℕ × Location)) (route : RouteTracking) (lp : RoutePoint),
      route.isActive = true → route.points.getLast? = some lp →
      ∃ route', runUpdates d (some route) us = some route' ∧
        route'.totalDistance = route.totalDistance +
          consecDistSum d (lp :: acceptedPts d lp.location us) ∧
        route'.isActive = true := by
  intro us
  induction us with
  | nil =>
    intro route lp hact hlast
    exact ⟨route, rfl, by simp [consecDistSum, acceptedPts], hact⟩
  | cons u us ih =>
    intro route lp hact hlast
    by_cases hd :
        ROUTE_TRACKING.MIN_DISTANCE_BETWEEN_POINTS ≤ d lp.location u.2
    · have hstep := addLocationToRoute_accept d u.1 u.2 route lp hact hlast hd
      obtain ⟨route', hrun, htot, hact'⟩ :=
        ih { route with
               points := truncPoints (route.points ++
                 [{ location := u.2, timestamp := u.1, isWaypoint := false }])
               totalDistance := route.totalDistance + d lp.location u.2 }
          { location := u.2, timestamp := u.1, isWaypoint := false }
          hact (truncPoints_getLast?_concat _ _)
      refine ⟨route', ?_, ?_, hact'⟩
      · simp only [runUpdates]
        rw [hstep]
        exact hrun
      · rw [htot]
        simp only [acceptedPts, hd, if_true, consecDistSum_cons_cons]
        ring
    · have hstep := addLocationToRoute_reject d u.1 u.2 route lp hact hlast
        (lt_of_not_le hd)
      obtain ⟨route', hrun, htot, hact'⟩ := ih route lp hact hlast
      refine ⟨route', ?_, ?_, hact'⟩
      · simp only [runUpdates]
        rw [hstep]
        exact hrun
      · rw [htot]
        simp only [acceptedPts, hd, if_false]

/-- A run of updates that all stay below the threshold relative to the last
stored point leaves the route untouched. -/
theorem runUpdates_all_rejected (d : DistFn) :
    ∀ (us : List (ℕ × Location)) (route : RouteTracking) (lp : RoutePoint),
      route.isActive = true → route.points.getLast? = some lp →
      (∀ u ∈ us, d lp.location u.2 <
        ROUTE_TRACKING.MIN_DISTANCE_BETWEEN_POINTS) →
      runUpdates d (some route) us = some route := by
  intro us
  induction us with
  | nil =>
    intro route lp _ _ _
    rfl
  | cons u us ih =>
    intro route lp hact hlast hall
    have hstep := addLocationToRoute_reject d u.1 u.2 route lp hact hlast
      (hall u (List.mem_cons_self u us))
    simp only [runUpdates]
    rw [hstep]
    exact ih route lp hact hlast
      (fun v hv => hall v (List.mem_cons_of_mem u hv))

/-- C1 amended.  The acceptance filter works exactly as claimed against the
last STORED point (which after an `addWaypoint` call is the waypoint, not
the last accepted update): an update appends and accumulates iff its
distance from the last stored point reaches the 10 m minimum, and a
rejected update changes nothing.  Without interleaved waypoints,
`totalDistance` is exactly the consecutive-point distance sum along the
accepted subsequence (the seed plus every accepted update, including points
later dropped by the retention cap), and a sequence of updates all below
the threshold from the seed leaves the single seed point and a zero total.
With an interleaved waypoint the distance reference moves to the waypoint
and the claimed equality fails (see the counterexample). -/
theorem routeDistance_accounting (d : DistFn) :
    (∀ now loc route lp, route.isActive = true →
      route.points.getLast? = some lp →
      ROUTE_TRACKING.MIN_DISTANCE_BETWEEN_POINTS ≤ d lp.location loc →
      addLocationToRoute d now loc (some route) =
        (some { route with
                  points := truncPoints (route.points ++
                    [{ location := loc, timestamp := now,
                       isWaypoint := false }])
                  totalDistance := route.totalDistance + d lp.location loc },
         [RouteEvent.routeCallback route.id])) ∧
    (∀ now loc route lp, route.isActive = true →
      route.points.getLast? = some lp →
      d lp.location loc < ROUTE_TRACKING.MIN_DISTANCE_BETWEEN_POINTS →
      addLocationToRoute d now loc (some route) = (some route, [])) ∧
    (∀ us route lp, route.isActive = true →
      route.points.getLast? = some lp →
      ∃ route', runUpdates d (some route) us = some route' ∧
        route'.totalDistance = route.totalDistance +
          consecDistSum d (lp :: acceptedPts d lp.location us)) ∧
    (∀ us rid now₀ loc₀ dest shared s,
      (∀ u ∈ us, d loc₀ u.2 < ROUTE_TRACKING.MIN_DISTANCE_BETWEEN_POINTS) →
      ∃ route', runUpdates d
          (startRouteTracking rid now₀ (some loc₀) dest shared s).1.activeRoute
          us = some route' ∧
        route'.points =
          [{ location := loc₀, timestamp := now₀, isWaypoint := true }] ∧
        route'.totalDistance = 0) := by
  refine ⟨?_, ?_, ?_, ?_⟩
  · intro now loc route lp hact hlast hdist
    exact addLocationToRoute_accept d now loc route lp hact hlast hdist
  · intro now loc route lp hact hlast hdist
    exact addLocationToRoute_reject d now loc route lp hact hlast hdist
  · intro us route lp hact hlast
    obtain ⟨route', hrun, htot, _⟩ :=
      runUpdates_totalDistance d us route lp hact hlast
    exact ⟨route', hrun, htot⟩
  · intro us rid now₀ loc₀ dest shared s hall
    have hstart : (startRouteTracking rid now₀ (some loc₀) dest shared
        s).1.activeRoute =
        some { id := rid
               userId := "current-user"
               startTime := now₀
               endTime := none
               isActive := true
               points := [{ location := loc₀, timestamp := now₀,
                            isWaypoint := true }]
               totalDistance := 0
               destination := dest
               sharedWith := shared } := by
      simp [startRouteTracking]
    rw [hstart]
    refine ⟨_, runUpdates_all_rejected d us _
      { location := loc₀, timestamp := now₀, isWaypoint := true } rfl rfl
      (fun u hu => hall u hu), rfl, rfl⟩

/-- Counterexample scenario, three points on one meridian (longitude -74):
the seed at latitude 0. -/
def ceSeed : Location :=
  { latitude := 0
    longitude := -74
    timestamp := 0
    accuracy := none
    altitude := none
    speed := none }

/-- Waypoint location 0.0009° (≈ 100.07 m) north of the seed. -/
def ceWp : Location :=
  { latitude := 9 / 10000
    longitude := -74
    timestamp := 1
    accuracy := none
    altitude := none
    speed := none }

/-- Update location 0.001° north of the seed (≈ 11.12 m past the
waypoint). -/
def ceUpd : Location :=
  { latitude := 1 / 1000
    longitude := -74
    timestamp := 2
    accuracy := none
    altitude := none
    speed := none }

/-- The route created by `startRouteTracking` at the seed location. -/
def ceSeedRoute : RouteTracking :=
  { id := 0
    userId := "current-user"
    startTime := 0
    endTime := none
    isActive := true
    points := [{ location := ceSeed, timestamp := 0, isWaypoint := true }]
    totalDistance := 0
    destination := none
    sharedWith := [] }

/-- The seed point of `ceSeedRoute`. -/
def ceSeedPt : RoutePoint :=
  { location := ceSeed, timestamp := 0, isWaypoint := true }

/-- The route slot after startRouteTracking at the seed, an addWaypoint at
`ceWp` and a filtered location update at `ceUpd`. -/
def ceFinal : Option RouteTracking :=
  runRouteOps demoDist
    (startRouteTracking 0 0 (some ceSeed) none [] routeInit).1.activeRoute
    [RouteOp.waypoint 1 (some ceWp) none, RouteOp.update 2 ceUpd]

/-- The waypoint point appended by the interleaved `addWaypoint`. -/
def ceWpPt : RoutePoint :=
  { location := ceWp, timestamp := 1, isWaypoint := true }

/-- The route after the interleaved waypoint. -/
def ceWpRoute : RouteTracking :=
  { ceSeedRoute with points := ceSeedRoute.points ++ [ceWpPt] }

/-- The route after the waypoint and the accepted update at `ceUpd`. -/
def ceFinalRoute : RouteTracking :=
  { ceWpRoute with
      points := truncPoints (ceWpRoute.points ++
        [{ location := ceUpd, timestamp := 2, isWaypoint := false }])
      totalDistance := ceWpRoute.totalDistance +
        demoDist ceWpPt.location ceUpd }

/-- C1 counterexample.  With an `addWaypoint` interleaved, the accepted
update's distance is measured from the waypoint, so `totalDistance`
(≈ 11.12 m) differs from the consecutive-point distance sum over the stored
points (≈ 111.19 m), from the sum over the non-waypoint points (0), and
from zero — under every reading, the claimed equality fails.  (On this
meridian the haversine distances are, to within less than 0.01 %, the
values `demoDist` produces; the update clears the 10 m threshold with a
1 m margin.) -/
theorem routeDistance_waypoint_mismatch :
    ceFinal.map (fun r => r.totalDistance) = some (demoDist ceWp ceUpd) ∧
    ceFinal.map (fun r => consecDistSum demoDist r.points) =
      some (demoDist ceSeed ceWp + demoDist ceWp ceUpd) ∧
    ceFinal.map (fun r => consecDistSum demoDist
      (r.points.filter (fun p => p.isWaypoint = false))) = some 0 ∧
    ceFinal.map (fun r => r.points.length) = some 3 ∧
    demoDist ceWp ceUpd ≠ demoDist ceSeed ceWp + demoDist ceWp ceUpd ∧
    demoDist ceWp ceUpd ≠ 0 ∧
    ROUTE_TRACKING.MIN_DISTANCE_BETWEEN_POINTS ≤ demoDist ceWp ceUpd := by
  have hstart : (startRouteTracking 0 0 (some ceSeed) none []
      routeInit).1.activeRoute = some ceSeedRoute := rfl
  have hwp : addWaypoint 1 (some ceWp) none (some ceSeedRoute) =
      (some ceWpRoute, [RouteEvent.routeCallback ceSeedRoute.id], true) :=
    addWaypoint_some 1 ceWp none ceSeedRoute rfl
  have hdist : ROUTE_TRACKING.MIN_DISTANCE_BETWEEN_POINTS ≤
      demoDist ceWpPt.location ceUpd := by
    norm_num [demoDist, ceWpPt, ceWp, ceUpd,
      ROUTE_TRACKING.MIN_DISTANCE_BETWEEN_POINTS]
  have hupd : addLocationToRoute demoDist 2 ceUpd (some ceWpRoute) =
      (some ceFinalRoute, [RouteEvent.routeCallback ceWpRoute.id]) :=
    addLocationToRoute_accept demoDist 2 ceUpd ceWpRoute ceWpPt rfl rfl hdist
  have h1 : ceFinal = some ceFinalRoute := by
    simp only [ceFinal, runRouteOps, List.foldl_cons, List.foldl_nil,
      applyRouteOp]
    rw [hstart]
    rw [hwp]
    rw [hupd]
  rw [h1]
  have hcap : ¬ ROUTE_TRACKING.MAX_POINTS_STORED < 3 := by
    norm_num [ROUTE_TRACKING.MAX_POINTS_STORED]
  have hpoints : ceFinalRoute.points =
      [{ location := ceSeed, timestamp := 0, isWaypoint := true },
       ceWpPt,
       { location := ceUpd, timestamp := 2, isWaypoint := false }] := by
    simp [ceFinalRoute, ceWpRoute, ceSeedRoute, truncPoints, hcap]
  refine ⟨?_, ?_, ?_, ?_, ?_, ?_, ?_⟩
  · simp [ceFinalRoute, ceWpRoute, ceSeedRoute, ceWpPt]
  · rw [Option.map_some']
    rw [hpoints]
    simp [consecDistSum, ceWpPt, add_zero]
  · rw [Option.map_some']
    rw [hpoints]
    simp [consecDistSum, ceWpPt]
  · rw [Option.map_some']
    rw [hpoints]
    rfl
  · norm_num [demoDist, ceSeed, ceWp, ceUpd]
  · norm_num [demoDist, ceWp, ceUpd]
  · norm_num [demoDist, ceWp, ceUpd,
      ROUTE_TRACKING.MIN_DISTANCE_BETWEEN_POINTS]

/-- Witness for the amended C1 theorem: an accepted update at `ceWp`, a
rejected update ≈ 1.1 m from the seed, the accounting run over the two
updates, and an all-sub-threshold run after start. -/
theorem routeDistance_accounting_witness :
    (addLocationToRoute demoDist 1 ceWp (some ceSeedRoute) =
      (some { ceSeedRoute with
                points := truncPoints (ceSeedRoute.points ++
                  [{ location := ceWp, timestamp := 1,
                     isWaypoint := false }])
                totalDistance := ceSeedRoute.totalDistance +
                  demoDist ceSeedPt.location ceWp },
       [RouteEvent.routeCallback ceSeedRoute.id])) ∧
    (addLocationToRoute demoDist 1 { ceWp with latitude := 1 / 100000 }
        (some ceSeedRoute) = (some ceSeedRoute, [])) ∧
    (∃ route', runUpdates demoDist (some ceSeedRoute)
        [(1, ceWp), (2, ceUpd)] = some route' ∧
      route'.totalDistance = ceSeedRoute.totalDistance +
        consecDistSum demoDist (ceSeedPt ::
          acceptedPts demoDist ceSeedPt.location [(1, ceWp), (2, ceUpd)])) ∧
    (∃ route', runUpdates demoDist
        (startRouteTracking 0 0 (some ceSeed) none [] routeInit).1.activeRoute
        [(1, { ceSeed with latitude := 1 / 100000 })] = some route' ∧
      route'.points =
        [{ location := ceSeed, timestamp := 0, isWaypoint := true }] ∧
      route'.totalDistance = 0) :=
  ⟨(routeDistance_accounting demoDist).1 1 ceWp ceSeedRoute ceSeedPt rfl rfl
      (by norm_num [demoDist, ceSeedPt, ceSeed, ceWp,
        ROUTE_TRACKING.MIN_DISTANCE_BETWEEN_POINTS]),
   (routeDistance_accounting demoDist).2.1 1
      { ceWp with latitude := 1 / 100000 } ceSeedRoute ceSeedPt rfl rfl
      (by norm_num [demoDist, ceSeedPt, ceSeed, ceWp,
        ROUTE_TRACKING.MIN_DISTANCE_BETWEEN_POINTS]),
   (routeDistance_accounting demoDist).2.2.1 [(1, ceWp), (2, ceUpd)]
      ceSeedRoute ceSeedPt rfl rfl,
   (routeDistance_accounting demoDist).2.2.2
      [(1, { ceSeed with latitude := 1 / 100000 })] 0 0 ceSeed none []
      routeInit (by
        intro u hu
        rcases List.mem_singleton.mp hu with rfl
        norm_num [demoDist, ceSeed,
          ROUTE_TRACKING.MIN_DISTANCE_BETWEEN_POINTS])⟩

/-- Iterate `addWaypoint` n times at a fixed location. -/
def iterWaypoint (loc : Location) : ℕ → Option RouteTracking →
    Option RouteTracking
  | 0, r => r
  | n + 1, r => iterWaypoint loc n (addWaypoint 0 (some loc) none r).1

/-- Each `addWaypoint` grows the points list by exactly one, with no cap
check. -/
theorem iterWaypoint_length (loc : Location) :
    ∀ (n : ℕ) (route : RouteTracking), route.isActive = true →
      ∃ route', iterWaypoint loc n (some route) = some route' ∧
        route'.points.length = route.points.length + n ∧
        route'.isActive = true := by
  intro n
  induction n with
  | zero =>
    intro route hact
    exact ⟨route, rfl, rfl, hact⟩
  | succ n ih =>
    intro route hact
    have hstep := addWaypoint_some 0 loc none route hact
    obtain ⟨route', hrun, hlen, hact'⟩ :=
      ih { route with points := route.points ++
             [{ location := loc, timestamp := 0, isWaypoint := true }] } hact
    refine ⟨route', ?_, ?_, hact'⟩
    · simp only [iterWaypoint]
      rw [hstep]
      exact hrun
    · rw [hlen]
      simp only [List.length_append, List.length_singleton]
      omega

/-- C7 counterexample.  The cap is enforced only in `addLocationToRoute`;
`addWaypoint` appends unconditionally, so 1000 waypoint insertions after
start leave 1001 stored points — above `MAX_POINTS_STORED`. -/
theorem routeCap_waypoint_overflow :
    (iterWaypoint ceSeed 1000
        (startRouteTracking 0 0 (some ceSeed) none []
          routeInit).1.activeRoute).map (fun r => r.points.length) =
      some 1001 ∧
    ROUTE_TRACKING.MAX_POINTS_STORED < 1001 := by
  have hstart : (startRouteTracking 0 0 (some ceSeed) none []
      routeInit).1.activeRoute = some ceSeedRoute := rfl
  rw [hstart]
  obtain ⟨route', hrun, hlen, _⟩ := iterWaypoint_length ceSeed 1000
    ceSeedRoute rfl
  rw [hrun, Option.map_some']
  constructor
  · rw [hlen]
    rfl
  · norm_num [ROUTE_TRACKING.MAX_POINTS_STORED]

/-- C7 amended.  Accepted location updates do maintain the retention cap:
after an accepted update the list holds `min (previous + 1) 1000` points,
and the retained points are a suffix of the previous-plus-new list, i.e.
the oldest are dropped first and the most recent kept in order (rejected
updates and no-ops change nothing).  `addWaypoint`, by contrast, appends
with no truncation, so waypoints can push the list past the cap until the
next accepted update truncates it. -/
theorem routeCap_maintenance :
    (∀ (d : DistFn) now loc route lp, route.isActive = true →
      route.points.getLast? = some lp →
      ROUTE_TRACKING.MIN_DISTANCE_BETWEEN_POINTS ≤ d lp.location loc →
      ∀ r, (addLocationToRoute d now loc (some route)).1 = some r →
        r.points.length =
          min (route.points.length + 1) ROUTE_TRACKING.MAX_POINTS_STORED ∧
        r.points.IsSuffix (route.points ++
          [{ location := loc, timestamp := now, isWaypoint := false }])) ∧
    (∀ now loc lastKnown route, route.isActive = true →
      ∀ r, (addWaypoint now (some loc) lastKnown (some route)).1 = some r →
        r.points.length = route.points.length + 1) := by
  constructor
  · intro d now loc route lp hact hlast hdist r hr
    rw [addLocationToRoute_accept d now loc route lp hact hlast hdist] at hr
    have hr' := Option.some.inj hr
    constructor
    · rw [← hr']
      show (truncPoints (route.points ++
        [{ location := loc, timestamp := now, isWaypoint := false }])).length
          = _
      rw [truncPoints_length]
      simp only [List.length_append, List.length_singleton]
    · rw [← hr']
      exact truncPoints_suffix _
  · intro now loc lastKnown route hact r hr
    rw [addWaypoint_some now loc lastKnown route hact] at hr
    have hr' := Option.some.inj hr
    rw [← hr']
    simp only [List.length_append, List.length_singleton]

/-- The concrete accepted route behind the cap-maintenance witness. -/
def ceAcceptedRoute : RouteTracking :=
  { ceSeedRoute with
      points := truncPoints (ceSeedRoute.points ++
        [{ location := ceWp, timestamp := 1, isWaypoint := false }])
      totalDistance := ceSeedRoute.totalDistance +
        demoDist ceSeedPt.location ceWp }

/-- The concrete waypoint-extended route behind the cap-maintenance
witness. -/
def ceWaypointRoute : RouteTracking :=
  { ceSeedRoute with
      points := ceSeedRoute.points ++
        [{ location := ceWp, timestamp := 5, isWaypoint := true }] }

/-- Witness for the amended C7 theorem: one accepted update keeps the cap
(2 = min 2 1000 points, a suffix of the appended list), one waypoint grows
the list by one without truncation. -/
theorem routeCap_maintenance_witness :
    (ceAcceptedRoute.points.length =
      min (ceSeedRoute.points.length + 1) ROUTE_TRACKING.MAX_POINTS_STORED ∧
     ceAcceptedRoute.points.IsSuffix (ceSeedRoute.points ++
       [{ location := ceWp, timestamp := 1, isWaypoint := false }])) ∧
    ceWaypointRoute.points.length = ceSeedRoute.points.length + 1 :=
  ⟨routeCap_maintenance.1 demoDist 1 ceWp ceSeedRoute ceSeedPt rfl rfl
      (by norm_num [demoDist, ceSeedPt, ceSeed, ceWp,
        ROUTE_TRACKING.MIN_DISTANCE_BETWEEN_POINTS])
      ceAcceptedRoute
      (by
        rw [addLocationToRoute_accept demoDist 1 ceWp ceSeedRoute ceSeedPt
          rfl rfl (by norm_num [demoDist, ceSeedPt, ceSeed, ceWp,
            ROUTE_TRACKING.MIN_DISTANCE_BETWEEN_POINTS])]
        rfl),
   routeCap_maintenance.2 5 ceWp none ceSeedRoute rfl ceWaypointRoute rfl⟩
